import Mathlib

/-!
Verification development for the supabase-meltano-bq-dagster ETL scripts.

Each definition below is a shallow embedding of a function of the repository,
translated from the Python source named in its doc comment.  Databases and
object stores are modelled as finite maps, row sets as natural-number counts
or lists of rows, and fallible SDK calls as boolean environment flags (true
means the call completed, false means it raised an exception that the script
catches).  All counts are taken under the assumption stated in the claims:
the underlying tables do not change concurrently during a run.
-/

/-! ## Python string helpers (os.path.splitext, os.path.basename) -/

namespace PyStr

/-- Helper for the stem of os.path.splitext: scan the reversed character list
for the first dot; returns the (reversed) part before the last dot of the
original list, or none when the list has no dot. -/
def dropExtRev : List Char → Option (List Char)
  | [] => none
  | c :: rest => if c = '.' then some rest else dropExtRev rest

/-- Stem component of os.path.splitext applied to a basename: the part before
the last dot, except that a name whose characters before that dot are all dots
(such as a leading-dot file) is returned whole, as in CPython. -/
def splitextStem (l : List Char) : List Char :=
  match dropExtRev l.reverse with
  | none => l
  | some r => if r.all (fun c => c == '.') then l else r.reverse

/-- os.path.basename: the part of the path after the last slash. -/
def basename (l : List Char) : List Char :=
  (l.reverse.takeWhile (fun c => c != '/')).reverse

end PyStr

/-! ## Table-name derivation of the three loaders (claim C3) -/

namespace CsvRds

/-- Table-name derivation of CSV-RDS/csv-to-rds.py process_csv_file line 129:
the filename with the extension stripped by os.path.splitext, nothing else. -/
def tableNameOf (filename : List Char) : List Char :=
  PyStr.splitextStem filename

end CsvRds

namespace S3Rds

/-- Table-name derivation of s3_to_rds.py process_s3_file lines 163-164:
os.path.splitext applied to os.path.basename of the S3 key, nothing else. -/
def tableNameOf (s3Key : List Char) : List Char :=
  PyStr.splitextStem (PyStr.basename s3Key)

end S3Rds

namespace CsvRdsS3

/-- The separator replacement of CSV-RDS/s3-to-rds.py line 257: the two
str.replace calls turning dash and space into underscore. -/
def sepToUnderscore (c : Char) : Char :=
  if c = '-' ∨ c = ' ' then '_' else c

/-- Table-name derivation of CSV-RDS/s3-to-rds.py process_s3_file lines
256-258: splitext stem, dash and space replaced by underscore, lower-cased,
then every character that is not alphanumeric and not an underscore removed. -/
def tableNameOf (filename : List Char) : List Char :=
  (((PyStr.splitextStem filename).map sepToUnderscore).map Char.toLower).filter
    (fun c => c.isAlphanum || c == '_')

end CsvRdsS3

/-- Modelled from the spec: the table name the claim asserts for every loader -
the filename with the .csv extension stripped, the separator characters dash
and space replaced by underscores, and lower-cased. -/
def specTableName (filename : List Char) : List Char :=
  ((filename.take (filename.length - 4)).map CsvRdsS3.sepToUnderscore).map Char.toLower

/-! ## bec-meltano/delete-rds-after-load.py (claims C1, C4) -/

namespace DelRds

/-- Mode flags of cleanup_tables in delete-rds-after-load.py. -/
structure CleanupMode where
  dry_run : Bool
  verify_only : Bool
  force : Bool
deriving DecidableEq

/-- verify_bigquery_data (lines 185-207): query the BigQuery row count of the
table; an exception (bqCount = none) or a zero count yields (false, 0), a
positive count n yields (true, n). -/
def verify_bigquery_data (bqCount : Option Nat) : Bool × Nat :=
  match bqCount with
  | none => (false, 0)
  | some n => if 0 < n then (true, n) else (false, 0)

/-- truncate_rds_table (lines 209-249): in dry-run mode nothing is executed;
otherwise the table is re-counted, an already empty table is left alone, and
else a TRUNCATE TABLE statement is issued.  truncOk = false models an
exception raised by the TRUNCATE; TRUNCATE is atomic, so the rows are then
unchanged.  Returns (truncateIssued, rowsAfter, success). -/
def truncate_rds_table (rows : Nat) (dry_run : Bool) (truncOk : Bool) :
    Bool × Nat × Bool :=
  if dry_run then (false, rows, true)
  else if rows = 0 then (false, rows, true)
  else if truncOk then (true, 0, true)
  else (true, rows, false)

/-- The per-table body of the cleanup_tables loop (lines 286-333): skip empty
RDS tables; unless force, verify the BigQuery data and skip when unverified or
when the BigQuery count is below 0.9 of the RDS count (the float comparison
bq_rows < rds_rows * 0.9 on integer counts, written exactly as
10 * bq < 9 * rds); in verify-only mode stop there; otherwise call
truncate_rds_table.  Returns (truncateIssued, rdsRowsAfter). -/
def cleanup_tables_step (mode : CleanupMode) (rds_rows : Nat)
    (bqCount : Option Nat) (truncOk : Bool) : Bool × Nat :=
  if rds_rows = 0 then (false, rds_rows)
  else
    let pass :=
      if mode.force then true
      else
        let v := verify_bigquery_data bqCount
        if !v.1 then false
        else if 10 * v.2 < 9 * rds_rows then false
        else true
    if !pass then (false, rds_rows)
    else if mode.verify_only then (false, rds_rows)
    else
      let t := truncate_rds_table rds_rows mode.dry_run truncOk
      (t.1, t.2.1)

end DelRds

/-! ## bec-aws-bq/rds-to-bq.py (claims C2, C4, C9) -/

namespace RdsBq

/-- The offsets visited by the chunk loop
for offset in range(0, total_rows, chunk_size)
of _transfer_table_chunked (line 328). -/
def chunkOffsets (total chunk : Nat) : List Nat :=
  (List.range ((total + chunk - 1) / chunk)).map (fun i => i * chunk)

/-- The chunk loop of _transfer_table_chunked (lines 328-371): at each offset
the page SELECT * FROM t LIMIT chunk OFFSET offset returns
min chunk (total - offset) rows of a static table; an empty page breaks the
loop; otherwise its length is added to transferred_rows. -/
def chunkLoop (total chunk : Nat) : List Nat → Nat → Nat
  | [], acc => acc
  | o :: rest, acc =>
    if min chunk (total - o) = 0 then acc
    else chunkLoop total chunk rest (acc + min chunk (total - o))

/-- The final value of the transferred_rows counter of
_transfer_table_chunked for a static source table of the given size. -/
def transferredRows (total chunk : Nat) : Nat :=
  chunkLoop total chunk (chunkOffsets total chunk) 0

/-- The RDS MySQL table targeted by a cleanup together with the corresponding
BigQuery table, as row counts. -/
structure DBState where
  rds : Nat
  bq : Nat
deriving DecidableEq

/-- delete_rds_table_data (lines 389-437): re-count the RDS table first and
return without any statement when it is already empty; otherwise issue
DELETE FROM table inside a transaction.  raises = true models an exception
during the transaction: the rollback leaves the rows unchanged.  The BigQuery
side is never touched by this routine.  Returns
(deleteIssued, finalState, success). -/
def delete_rds_table_data (db : DBState) (raises : Bool) :
    Bool × DBState × Bool :=
  if db.rds = 0 then (false, db, true)
  else if raises then (true, db, false)
  else (true, { db with rds := 0 }, true)

/-- Environment of one table during run_transfer: the static RDS count, the
BigQuery count measured by the verification query after the load jobs, and
exception flags for the load and for the delete transaction. -/
structure TransferEnv where
  rdsRows : Nat
  bqRows : Nat
  loadRaises : Bool
  deleteRaises : Bool
deriving DecidableEq

/-- transfer_table_to_bigquery (lines 204-236) composed with the chunked or
optimized body (both end at lines 313 and 383 with
return total_rows == bq_rows): an empty table is reported as success without
creating anything; an exception yields False; otherwise the result is the
equality of the MySQL count taken before the load with the BigQuery count
taken after it. -/
def transfer_table_to_bigquery (e : TransferEnv) : Bool :=
  if e.rdsRows = 0 then true
  else if e.loadRaises then false
  else e.rdsRows == e.bqRows

/-- The per-table body of the run_transfer loop (lines 477-516) with deletion
enabled or disabled: the RDS data is deleted via delete_rds_table_data only
when transfer_table_to_bigquery reported success, the table is non-empty, and
deletion is enabled.  Returns (deleteAttempted, rdsRowsAfter). -/
def run_transfer_step (e : TransferEnv) (deleteAfter : Bool) : Bool × Nat :=
  if transfer_table_to_bigquery e then
    if 0 < e.rdsRows then
      if deleteAfter then
        (true, ((delete_rds_table_data ⟨e.rdsRows, e.bqRows⟩ e.deleteRaises).2.1).rds)
      else (false, e.rdsRows)
    else (false, e.rdsRows)
  else (false, e.rdsRows)

end RdsBq

/-! ## src/main.py orchestrator (claim C5) -/

namespace MainPy

/-- The four stage scripts run by main() of src/main.py. -/
inductive Stage
  | setup
  | csvS3
  | s3Rds
  | rdsBq
deriving DecidableEq

/-- Observable outcome of one full-pipeline run of main(): which stages were
executed, the pass-fail summary printed at the end, and the exit code. -/
structure OrchestratorRun where
  executed : List Stage
  summary : List (Stage × Bool)
  exitCode : Nat
deriving DecidableEq

/-- main() of src/main.py lines 116-242, given the success of each stage
script (environment validation and the script-existence check are assumed to
pass; run_script is abstracted to the boolean it returns).  A setup failure
calls sys.exit(1) before any further stage; otherwise the three data stages
all run regardless of individual failures and the final summary reports each
of them, with the exit code computed from data_imported = csv or s3 and the
BigQuery result. -/
def orchestrator_main (res : Stage → Bool) : OrchestratorRun :=
  if res Stage.setup = false then
    { executed := [Stage.setup], summary := [], exitCode := 1 }
  else
    let csv := res Stage.csvS3
    let s3 := res Stage.s3Rds
    let bq := res Stage.rdsBq
    let dataImported := csv || s3
    { executed := [Stage.setup, Stage.csvS3, Stage.s3Rds, Stage.rdsBq],
      summary := [(Stage.setup, true), (Stage.csvS3, csv),
                  (Stage.s3Rds, s3), (Stage.rdsBq, bq)],
      exitCode :=
        if dataImported && bq then 0
        else if dataImported then 1
        else if bq then 0
        else 1 }

end MainPy

/-! ## CLI exit statuses (claim C6) -/

namespace Cli

/-- Outcome of a run of a CLI script: it ran to its own success or failure
determination, a KeyboardInterrupt arrived, or another exception escaped. -/
inductive RunOutcome
  | completed (success : Bool)
  | interrupted
  | crashed
deriving DecidableEq

/-- The exit status of a CPython process: the script sets the status via
sys.exit where its top level handles the outcome (the handler returns some
code), and otherwise the interpreter defaults apply - normal end of script
exits 0, an unhandled exception exits 1, and an unhandled KeyboardInterrupt
makes the interpreter terminate itself via SIGINT, observed as status 130. -/
def pythonExitStatus (handler : RunOutcome → Option Nat) (o : RunOutcome) : Nat :=
  match handler o with
  | some c => c
  | none =>
    match o with
    | RunOutcome.completed _ => 0
    | RunOutcome.interrupted => 130
    | RunOutcome.crashed => 1

/-- The top level of src/main.py lines 244-292: sys.exit(exit_code) with
exit_code 0 or 1 from the body, except KeyboardInterrupt exits 130 and any
other exception exits 1. -/
def main_py_handler : RunOutcome → Option Nat
  | RunOutcome.completed ok => some (if ok then 0 else 1)
  | RunOutcome.interrupted => some 130
  | RunOutcome.crashed => some 1

/-- The top level of bec-aws-bq/rds-to-bq.py lines 546-589: main() exits 0 on
success and 1 on failure; there is no handler around main(), so interrupts and
crashes fall through to the interpreter defaults. -/
def rds_to_bq_handler : RunOutcome → Option Nat
  | RunOutcome.completed ok => some (if ok then 0 else 1)
  | RunOutcome.interrupted => none
  | RunOutcome.crashed => none

/-- The top level of RDS-BQ/run-pipeline.py lines 318-326: main() calls
sys.exit(1) on failure and returns normally on success (exit 0 by falling off
the end); KeyboardInterrupt exits 130, any other exception exits 1. -/
def run_pipeline_handler : RunOutcome → Option Nat
  | RunOutcome.completed ok => if ok then none else some 1
  | RunOutcome.interrupted => some 130
  | RunOutcome.crashed => some 1

/-- Modelled from the spec: exit code 0 on success, 1 on failure, 130 on
interrupt (section 6 of the spec); a crash is a failing run. -/
def expectedCliExit : RunOutcome → Nat
  | RunOutcome.completed true => 0
  | RunOutcome.completed false => 1
  | RunOutcome.interrupted => 130
  | RunOutcome.crashed => 1

end Cli

/-! ## File moves (claim C7) -/

namespace Moves

/-- move_s3_file_to_imported of s3_to_rds.py lines 115-134: copy_object to the
imported key then delete_object on the source key; any ClientError is caught
and reported as False.  A copy of a missing source key raises.  copyOk and
deleteOk model exceptions of the two SDK calls.  The store is a map from key
to object body.  Returns (finalStore, reportedSuccess). -/
def move_s3_file_to_imported (store : String → Option String)
    (srcKey dstKey : String) (copyOk deleteOk : Bool) :
    (String → Option String) × Bool :=
  match store srcKey with
  | none => (store, false)
  | some body =>
    if copyOk then
      let afterCopy : String → Option String :=
        fun k => if k = dstKey then some body else store k
      if deleteOk then
        (fun k => if k = srcKey then none else afterCopy k, true)
      else (afterCopy, false)
    else (store, false)

/-- move_file_to_imported of bec-aws-bq/csv-to-s3.py lines 131-146:
shutil.move of the source path onto the destination path; a missing source or
a raising move is caught and reported as False.  The filesystem is a map from
path to file contents.  Returns (finalFs, reportedSuccess). -/
def move_file_to_imported (fs : String → Option String)
    (src dst : String) (moveOk : Bool) : (String → Option String) × Bool :=
  match fs src with
  | none => (fs, false)
  | some body =>
    if moveOk then
      (fun k => if k = dst then some body else if k = src then none else fs k, true)
    else (fs, false)

/-- A one-file object store used to instantiate the move theorems. -/
def demoStore : String → Option String :=
  fun k => if k = "s3-to-rds/orders.csv" then some "rows" else none

end Moves

/-! ## CSV loads with replace semantics (claim C8) -/

namespace Loads

/-- load_csv_to_mysql of CSV-RDS/csv-to-rds.py lines 102-124 and of
s3_to_rds.py lines 136-158: pandas.read_csv of the file (none models a read
failure) followed by DataFrame.to_sql with if_exists equal to replace, which
drops any previous content of the table and writes exactly the rows of the
dataframe.  Rows are abstract.  Returns (finalDb, reportedSuccess). -/
def load_csv_to_mysql (db : String → Option (List (List String)))
    (csv : Option (List (List String))) (table : String) :
    (String → Option (List (List String))) × Bool :=
  match csv with
  | none => (db, false)
  | some rows => (fun t => if t = table then some rows else db t, true)

/-- SELECT COUNT(*) on a table of the modelled database. -/
def tableRowCount (db : String → Option (List (List String))) (t : String) : Nat :=
  ((db t).getD []).length

end Loads

/-! ## bec-aws-bq/csv-to-s3.py (claim C10) -/

namespace CsvS3

/-- One CSV file of the source folder with the outcome of its two SDK calls:
the S3 upload and the local move to the imported folder. -/
structure CsvFile where
  name : String
  uploadOk : Bool
  moveOk : Bool
deriving DecidableEq

/-- The counting loop of upload_all_csv_files lines 116-126: a failed upload
increments failed_uploads; a successful upload increments successful_uploads
whether or not the subsequent move to the imported folder succeeded. -/
def upload_fold : List CsvFile → Nat → Nat → Nat × Nat
  | [], s, f => (s, f)
  | file :: rest, s, f =>
    if file.uploadOk then upload_fold rest (s + 1) f
    else upload_fold rest s (f + 1)

/-- upload_all_csv_files (lines 102-129): returns failed_uploads == 0. -/
def upload_all_csv_files (files : List CsvFile) : Bool :=
  (upload_fold files 0 0).2 == 0

/-- Where a file sits after the run. -/
inductive FileLoc
  | source
  | imported
deriving DecidableEq

/-- A file leaves the source folder only when its upload succeeded and then
shutil.move also succeeded; otherwise it stays in the source folder. -/
def finalLocation (f : CsvFile) : FileLoc :=
  if f.uploadOk && f.moveOk then FileLoc.imported else FileLoc.source

/-- A file is present in the bucket exactly when its upload call succeeded. -/
def inBucket (f : CsvFile) : Bool :=
  f.uploadOk

/-- run_full_pipeline (lines 148-172): success is exactly the result of
upload_all_csv_files. -/
def run_full_pipeline (files : List CsvFile) : Bool :=
  upload_all_csv_files files

/-- The exit status of csv-to-s3.py main (lines 174-214): sys.exit(1) when
run_full_pipeline failed, 0 otherwise. -/
def csvToS3Status (files : List CsvFile) : Nat :=
  if run_full_pipeline files then 0 else 1

end CsvS3

/-! ## Helper lemmas -/

/-- Shifting every offset by one chunk is the same as reading one chunk
further into the table. -/
theorem RdsBq.chunkLoop_shift (total chunk : Nat) (offs : List Nat) (acc : Nat) :
    RdsBq.chunkLoop total chunk (offs.map (fun o => o + chunk)) acc =
      RdsBq.chunkLoop (total - chunk) chunk offs acc := by
  induction offs generalizing acc with
  | nil => rfl
  | cons o rest ih =>
    have h : total - (o + chunk) = total - chunk - o := by omega
    simp only [List.map_cons, RdsBq.chunkLoop, h]
    split
    · rfl
    · exact ih _

/-- The chunk loop over the first n offsets accumulates
min total (n * chunk) rows. -/
theorem RdsBq.chunkLoop_range (chunk : Nat) (hc : 0 < chunk) :
    ∀ (n total acc : Nat),
      RdsBq.chunkLoop total chunk ((List.range n).map (fun i => i * chunk)) acc =
        acc + min total (n * chunk) := by
  intro n
  induction n with
  | zero => intro total acc; simp [RdsBq.chunkLoop]
  | succ n ih =>
    intro total acc
    have hfun : ((fun i : Nat => i * chunk) ∘ Nat.succ) =
        (fun o => o + chunk) ∘ (fun i : Nat => i * chunk) := by
      funext i
      simp [Function.comp, Nat.succ_mul]
    rw [List.range_succ_eq_map, List.map_cons, List.map_map, hfun,
      ← List.map_map]
    simp only [Nat.zero_mul]
    by_cases htot : total = 0
    · subst htot
      simp [RdsBq.chunkLoop]
    · have hmin : ¬ min chunk (total - 0) = 0 := by omega
      simp only [RdsBq.chunkLoop, if_neg hmin]
      rw [RdsBq.chunkLoop_shift, ih]
      have hsm : (n + 1) * chunk = n * chunk + chunk := by ring
      rw [hsm]
      omega

/-- The page sizes over the first n offsets sum to min total (n * chunk). -/
theorem RdsBq.pageSum_range (chunk : Nat) :
    ∀ (n total : Nat),
      (((List.range n).map (fun i => i * chunk)).map
          (fun o => min chunk (total - o))).sum = min total (n * chunk) := by
  intro n
  induction n with
  | zero => intro total; simp
  | succ n ih =>
    intro total
    have hfun : ((fun i : Nat => i * chunk) ∘ Nat.succ) =
        (fun o => o + chunk) ∘ (fun i : Nat => i * chunk) := by
      funext i
      simp [Function.comp, Nat.succ_mul]
    rw [List.range_succ_eq_map, List.map_cons, List.map_map, hfun,
      ← List.map_map, List.map_cons, List.sum_cons, List.map_map]
    have hpt : ((fun o => min chunk (total - o)) ∘ fun o : Nat => o + chunk) =
        (fun o : Nat => min chunk (total - chunk - o)) := by
      funext o
      have h : total - (o + chunk) = total - chunk - o := by omega
      simp [Function.comp, h]
    rw [hpt]
    have hih := ih (total - chunk)
    rw [List.map_map] at hih
    have hpt2 : ((fun o => min chunk (total - chunk - o)) ∘ fun i : Nat => i * chunk) =
        (fun i : Nat => min chunk (total - chunk - i * chunk)) := by
      funext i
      simp [Function.comp]
    rw [List.map_map, hpt2]
    rw [hpt2] at hih
    rw [hih]
    have hsm : (n + 1) * chunk = n * chunk + chunk := by ring
    rw [hsm]
    simp only [Nat.zero_mul, Nat.sub_zero]
    omega

/-- The number of offsets is the ceiling of total over chunk, so the offsets
cover the whole table. -/
theorem RdsBq.total_le_ceil_mul (total chunk : Nat) (hc : 0 < chunk) :
    total ≤ ((total + chunk - 1) / chunk) * chunk := by
  have h1 := Nat.div_add_mod (total + chunk - 1) chunk
  have h2 : (total + chunk - 1) % chunk < chunk := Nat.mod_lt _ hc
  rw [Nat.mul_comm]
  omega

/-- A path without slashes is its own basename. -/
theorem PyStr.basename_of_no_slash (l : List Char)
    (h : l.all (fun c => c != '/') = true) :
    PyStr.basename l = l := by
  unfold PyStr.basename
  have ht : l.reverse.takeWhile (fun c => c != '/') = l.reverse := by
    apply List.takeWhile_eq_self_iff.mpr
    intro x hx
    exact List.all_eq_true.mp h x (List.mem_reverse.mp hx)
  rw [ht, List.reverse_reverse]

/-- Appending the extension .csv to a stem with some non-dot character and
taking the splitext stem gives the stem back. -/
theorem PyStr.splitextStem_append_csv (stem : List Char)
    (h : stem.any (fun c => c != '.') = true) :
    PyStr.splitextStem (stem ++ ['.', 'c', 's', 'v']) = stem := by
  have hrev : (stem ++ ['.', 'c', 's', 'v']).reverse =
      'v' :: 's' :: 'c' :: '.' :: stem.reverse := by
    simp
  have hd : PyStr.dropExtRev ('v' :: 's' :: 'c' :: '.' :: stem.reverse) =
      some stem.reverse := by
    simp [PyStr.dropExtRev]
  have hall : stem.reverse.all (fun c => c == '.') = false := by
    rcases List.any_eq_true.mp h with ⟨c, hc, hcp⟩
    rw [Bool.eq_false_iff]
    intro hcon
    have hc2 := List.all_eq_true.mp hcon c (List.mem_reverse.mpr hc)
    simp at hc2 hcp
    exact hcp hc2
  unfold PyStr.splitextStem
  rw [hrev, hd]
  simp [hall]

/-- Characterization of the standard-mode cleanup step when the BigQuery
count query raises: nothing is truncated. -/
theorem DelRds.cleanup_standard_none (rds : Nat) (tok : Bool) :
    DelRds.cleanup_tables_step ⟨false, false, false⟩ rds none tok = (false, rds) := by
  by_cases h0 : rds = 0 <;>
    simp [DelRds.cleanup_tables_step, DelRds.verify_bigquery_data, h0]

/-- Characterization of the standard-mode cleanup step on a BigQuery count b:
the truncate runs exactly when both counts are positive and b covers at least
nine tenths of the RDS count. -/
theorem DelRds.cleanup_standard_some (rds b : Nat) (tok : Bool) :
    DelRds.cleanup_tables_step ⟨false, false, false⟩ rds (some b) tok =
      if 0 < rds ∧ 0 < b ∧ 9 * rds ≤ 10 * b then (true, if tok then 0 else rds)
      else (false, rds) := by
  by_cases h0 : rds = 0
  · have hn : ¬ (0 < rds ∧ 0 < b ∧ 9 * rds ≤ 10 * b) := by omega
    rw [if_neg hn]
    simp [DelRds.cleanup_tables_step, h0]
  · by_cases hb : 0 < b
    · by_cases hlt : 10 * b < 9 * rds
      · have hn : ¬ (0 < rds ∧ 0 < b ∧ 9 * rds ≤ 10 * b) := by omega
        rw [if_neg hn]
        simp [DelRds.cleanup_tables_step, DelRds.verify_bigquery_data, h0, hb, hlt]
      · have hc : 0 < rds ∧ 0 < b ∧ 9 * rds ≤ 10 * b := by omega
        rw [if_pos hc]
        cases tok <;>
          simp [DelRds.cleanup_tables_step, DelRds.verify_bigquery_data,
            DelRds.truncate_rds_table, h0, hb, hlt]
    · have hn : ¬ (0 < rds ∧ 0 < b ∧ 9 * rds ≤ 10 * b) := by omega
      rw [if_neg hn]
      simp [DelRds.cleanup_tables_step, DelRds.verify_bigquery_data, h0, hb]

/-- When every upload succeeds the failed_uploads counter keeps its initial
value. -/
theorem CsvS3.upload_fold_all_ok (files : List CsvS3.CsvFile)
    (h : ∀ f ∈ files, f.uploadOk = true) :
    ∀ (s fl : Nat), (CsvS3.upload_fold files s fl).2 = fl := by
  induction files with
  | nil => intro s fl; rfl
  | cons f rest ih =>
    intro s fl
    have hf : f.uploadOk = true := h f (List.mem_cons_self f rest)
    simp only [CsvS3.upload_fold, hf, if_true]
    exact ih (fun g hg => h g (List.mem_cons_of_mem f hg)) (s + 1) fl

/-! ## Claim theorems -/

/-- Claim C1: in the standard mode of delete-rds-after-load.py (no force, no
dry-run, no verify-only) the TRUNCATE of a table is issued exactly when the
RDS row count is positive, the BigQuery row count is positive, and the
BigQuery count is at least 0.9 of the RDS count; in every other case the RDS
rows of the table are left unchanged. -/
theorem C1_cleanup_standard_mode (rds : Nat) (bq : Option Nat) (tok : Bool) :
    ((DelRds.cleanup_tables_step ⟨false, false, false⟩ rds bq tok).1 = true ↔
      (0 < rds ∧ ∃ b, bq = some b ∧ 0 < b ∧ 9 * rds ≤ 10 * b)) ∧
    ((DelRds.cleanup_tables_step ⟨false, false, false⟩ rds bq tok).1 = false →
      (DelRds.cleanup_tables_step ⟨false, false, false⟩ rds bq tok).2 = rds) := by
  cases bq with
  | none =>
    rw [DelRds.cleanup_standard_none]
    constructor
    · simp
    · intro _; rfl
  | some b =>
    rw [DelRds.cleanup_standard_some]
    by_cases hc : 0 < rds ∧ 0 < b ∧ 9 * rds ≤ 10 * b
    · rw [if_pos hc]
      constructor
      · constructor
        · intro _; exact ⟨hc.1, b, rfl, hc.2.1, hc.2.2⟩
        · intro _; rfl
      · intro hfalse; simp at hfalse
    · rw [if_neg hc]
      constructor
      · constructor
        · intro hh; simp at hh
        · rintro ⟨h1, b2, heq, h3, h4⟩
          cases heq
          exact absurd ⟨h1, h3, h4⟩ hc
      · intro _; rfl

/-- Instance of C1 at a concrete table: 10 RDS rows, 9 BigQuery rows, so the
ratio check passes and the TRUNCATE runs. -/
theorem C1_cleanup_standard_mode_witness :
    (DelRds.cleanup_tables_step ⟨false, false, false⟩ 10 (some 9) true).1 = true :=
  (C1_cleanup_standard_mode 10 (some 9) true).1.mpr
    ⟨by decide, 9, rfl, by decide, by decide⟩

/-- Claim C2: for any positive chunk size and a static source table, the chunk
loop of _transfer_table_chunked reads pages at offsets 0, chunk, 2*chunk, ...
that collectively contain exactly the total row count obtained from the single
count query - both the transferred_rows counter and the sum of the page sizes
equal the total, for every total including 0 and a total of exactly one
page. -/
theorem C2_chunked_pages_cover_total (total chunk : Nat) (hc : 0 < chunk) :
    RdsBq.transferredRows total chunk = total ∧
    ((RdsBq.chunkOffsets total chunk).map (fun o => min chunk (total - o))).sum
      = total := by
  have hle := RdsBq.total_le_ceil_mul total chunk hc
  constructor
  · unfold RdsBq.transferredRows RdsBq.chunkOffsets
    rw [RdsBq.chunkLoop_range chunk hc]
    omega
  · unfold RdsBq.chunkOffsets
    rw [RdsBq.pageSum_range]
    omega

/-- Instance of C2: a 10-row table read in pages of 5 (an exact page boundary)
transfers all 10 rows, and a 0-row table transfers 0. -/
theorem C2_chunked_pages_cover_total_witness :
    (0 < 5 ∧ RdsBq.transferredRows 10 5 = 10) ∧ RdsBq.transferredRows 0 5 = 0 :=
  ⟨⟨by decide, (C2_chunked_pages_cover_total 10 5 (by decide)).1⟩,
   (C2_chunked_pages_cover_total 0 5 (by decide)).1⟩

/-- Claim C3 fails as stated: the loader of CSV-RDS/csv-to-rds.py derives the
table name My-File from the filename My-File.csv, while the claimed formula
(extension stripped, separators to underscores, lower-cased) yields
my_file. -/
theorem C3_counterexample :
    CsvRds.tableNameOf ("My-File.csv".toList) = "My-File".toList ∧
    specTableName ("My-File.csv".toList) = "my_file".toList ∧
    CsvRds.tableNameOf ("My-File.csv".toList) ≠
      specTableName ("My-File.csv".toList) := by
  refine ⟨by decide, by decide, by decide⟩

/-- Claim C3 amended: for a filename stem.csv whose stem contains some
character other than a dot (and no slash), the loaders of
CSV-RDS/csv-to-rds.py and s3_to_rds.py derive the table name by stripping the
extension only, and only CSV-RDS/s3-to-rds.py additionally replaces dash and
space by underscore, lower-cases, and drops the remaining characters that are
neither alphanumeric nor underscore. -/
theorem C3_table_name_derivations (stem : List Char)
    (hdot : stem.any (fun c => c != '.') = true)
    (hslash : stem.all (fun c => c != '/') = true) :
    CsvRds.tableNameOf (stem ++ ['.', 'c', 's', 'v']) = stem ∧
    S3Rds.tableNameOf (stem ++ ['.', 'c', 's', 'v']) = stem ∧
    CsvRdsS3.tableNameOf (stem ++ ['.', 'c', 's', 'v']) =
      ((stem.map CsvRdsS3.sepToUnderscore).map Char.toLower).filter
        (fun c => c.isAlphanum || c == '_') := by
  have h1 : PyStr.splitextStem (stem ++ ['.', 'c', 's', 'v']) = stem :=
    PyStr.splitextStem_append_csv stem hdot
  refine ⟨h1, ?_, ?_⟩
  · have hs2 : (stem ++ ['.', 'c', 's', 'v']).all (fun c => c != '/') = true := by
      rw [List.all_append]
      simp [hslash]
    unfold S3Rds.tableNameOf
    rw [PyStr.basename_of_no_slash _ hs2, h1]
  · unfold CsvRdsS3.tableNameOf
    rw [h1]

/-- Instance of the amended C3 at the filename Sales-Data.csv. -/
theorem C3_table_name_derivations_witness :
    CsvRds.tableNameOf ("Sales-Data".toList ++ ['.', 'c', 's', 'v']) =
      "Sales-Data".toList ∧
    S3Rds.tableNameOf ("Sales-Data".toList ++ ['.', 'c', 's', 'v']) =
      "Sales-Data".toList ∧
    CsvRdsS3.tableNameOf ("Sales-Data".toList ++ ['.', 'c', 's', 'v']) =
      (("Sales-Data".toList.map CsvRdsS3.sepToUnderscore).map Char.toLower).filter
        (fun c => c.isAlphanum || c == '_') :=
  C3_table_name_derivations ("Sales-Data".toList) (by decide) (by decide)

/-- Claim C4 fails as stated: with 5 rows in the RDS table and 0 rows in the
corresponding BigQuery table, delete_rds_table_data still issues the DELETE,
because the count it re-checks first is the source count, not the destination
count. -/
theorem C4_counterexample :
    (RdsBq.delete_rds_table_data ⟨5, 0⟩ false).1 = true ∧
    (RdsBq.DBState.mk 5 0).bq = 0 := by
  exact ⟨by decide, rfl⟩

/-- Claim C4 amended: delete_rds_table_data re-checks the row count of the
source RDS table itself and issues the DELETE exactly when that count is
positive; the DELETE runs inside a single transaction, so an exception rolls
it back and the source rows are unchanged; the destination table is never
touched by the routine; and an exception-free DELETE empties the table. -/
theorem C4_cleanup_delete_transaction (db : RdsBq.DBState) (raises : Bool) :
    ((RdsBq.delete_rds_table_data db raises).1 = true ↔ 0 < db.rds) ∧
    (raises = true → (RdsBq.delete_rds_table_data db raises).2.1 = db) ∧
    ((RdsBq.delete_rds_table_data db raises).2.1.bq = db.bq) ∧
    (raises = false → 0 < db.rds →
      (RdsBq.delete_rds_table_data db raises).2.1.rds = 0) := by
  unfold RdsBq.delete_rds_table_data
  by_cases h0 : db.rds = 0
  · cases raises <;> simp [h0]
  · cases raises <;> simp [h0] <;> omega

/-- Instance of the amended C4: an exception during the DELETE leaves the
table state unchanged. -/
theorem C4_cleanup_delete_transaction_witness :
    (RdsBq.delete_rds_table_data ⟨3, 7⟩ true).2.1 = ⟨3, 7⟩ :=
  (C4_cleanup_delete_transaction ⟨3, 7⟩ true).2.1 rfl

/-- Claim C5 fails as stated: when the database-setup stage fails, main() of
src/main.py exits immediately with code 1 - the CSV stage is not run and no
pass-fail summary is printed, so a failed stage does stop the pipeline
there. -/
theorem C5_counterexample :
    (MainPy.orchestrator_main (fun _ => false)).executed = [MainPy.Stage.setup] ∧
    MainPy.Stage.csvS3 ∉ (MainPy.orchestrator_main (fun _ => false)).executed ∧
    (MainPy.orchestrator_main (fun _ => false)).summary = [] := by
  refine ⟨rfl, by decide, rfl⟩

/-- Claim C5 amended: a database-setup failure aborts the full-pipeline run
before any further stage, with exit code 1 and no summary; once setup
succeeds, the three data stages all run regardless of individual failures and
the final summary reports a pass-fail line for each of them. -/
theorem C5_orchestrator_soft_fail (res : MainPy.Stage → Bool) :
    (res MainPy.Stage.setup = false →
      (MainPy.orchestrator_main res).executed = [MainPy.Stage.setup] ∧
      (MainPy.orchestrator_main res).exitCode = 1 ∧
      (MainPy.orchestrator_main res).summary = []) ∧
    (res MainPy.Stage.setup = true →
      (MainPy.orchestrator_main res).executed =
        [MainPy.Stage.setup, MainPy.Stage.csvS3, MainPy.Stage.s3Rds,
         MainPy.Stage.rdsBq] ∧
      (MainPy.orchestrator_main res).summary =
        [(MainPy.Stage.setup, true), (MainPy.Stage.csvS3, res MainPy.Stage.csvS3),
         (MainPy.Stage.s3Rds, res MainPy.Stage.s3Rds),
         (MainPy.Stage.rdsBq, res MainPy.Stage.rdsBq)]) := by
  unfold MainPy.orchestrator_main
  constructor
  · intro h; simp [h]
  · intro h; simp [h]

/-- Instance of the amended C5: with setup passing and the BigQuery stage
failing, all four stages are still executed. -/
theorem C5_orchestrator_soft_fail_witness :
    (MainPy.orchestrator_main
        (fun s => match s with | MainPy.Stage.rdsBq => false | _ => true)).executed =
      [MainPy.Stage.setup, MainPy.Stage.csvS3, MainPy.Stage.s3Rds,
       MainPy.Stage.rdsBq] :=
  ((C5_orchestrator_soft_fail
      (fun s => match s with | MainPy.Stage.rdsBq => false | _ => true)).2 rfl).1

/-- Claim C6: for the CLI entry points of src/main.py, bec-aws-bq/rds-to-bq.py
and RDS-BQ/run-pipeline.py, the process exit status is 0 exactly on a
successful run, 1 on a failed or crashed run, and 130 on a KeyboardInterrupt
(for rds-to-bq.py via the interpreter default for an unhandled interrupt). -/
theorem C6_cli_exit_statuses (o : Cli.RunOutcome) :
    Cli.pythonExitStatus Cli.main_py_handler o = Cli.expectedCliExit o ∧
    Cli.pythonExitStatus Cli.rds_to_bq_handler o = Cli.expectedCliExit o ∧
    Cli.pythonExitStatus Cli.run_pipeline_handler o = Cli.expectedCliExit o ∧
    (Cli.pythonExitStatus Cli.main_py_handler o = 0 ↔
      o = Cli.RunOutcome.completed true) ∧
    (Cli.pythonExitStatus Cli.rds_to_bq_handler o = 0 ↔
      o = Cli.RunOutcome.completed true) ∧
    (Cli.pythonExitStatus Cli.run_pipeline_handler o = 0 ↔
      o = Cli.RunOutcome.completed true) := by
  cases o with
  | completed s => cases s <;> decide
  | interrupted => decide
  | crashed => decide

/-- Claim C7: whenever a file-move reports success, the object exists at the
destination key with the original body and no longer exists at the source key,
both for the S3 copy-then-delete move of s3_to_rds.py and for the local
shutil.move of bec-aws-bq/csv-to-s3.py. -/
theorem C7_move_success_relocates (store fs : String → Option String)
    (src dst : String) (copyOk deleteOk moveOk : Bool) (hne : src ≠ dst) :
    ((Moves.move_s3_file_to_imported store src dst copyOk deleteOk).2 = true →
      (Moves.move_s3_file_to_imported store src dst copyOk deleteOk).1 dst =
        store src ∧
      ((Moves.move_s3_file_to_imported store src dst copyOk deleteOk).1 dst).isSome
        = true ∧
      (Moves.move_s3_file_to_imported store src dst copyOk deleteOk).1 src = none) ∧
    ((Moves.move_file_to_imported fs src dst moveOk).2 = true →
      (Moves.move_file_to_imported fs src dst moveOk).1 dst = fs src ∧
      ((Moves.move_file_to_imported fs src dst moveOk).1 dst).isSome = true ∧
      (Moves.move_file_to_imported fs src dst moveOk).1 src = none) := by
  constructor
  · intro hs
    unfold Moves.move_s3_file_to_imported at hs ⊢
    cases hsrc : store src with
    | none =>
      rw [hsrc] at hs
      simp at hs
    | some body =>
      rw [hsrc] at hs
      cases copyOk with
      | false => simp at hs
      | true =>
        cases deleteOk with
        | false => simp at hs
        | true => simp [hne, Ne.symm hne]
  · intro hs
    unfold Moves.move_file_to_imported at hs ⊢
    cases hsrc : fs src with
    | none =>
      rw [hsrc] at hs
      simp at hs
    | some body =>
      rw [hsrc] at hs
      cases moveOk with
      | false => simp at hs
      | true => simp [hne, Ne.symm hne]

/-- Instance of C7: moving the only object of a one-file store removes it from
the source key and materializes it at the destination key. -/
theorem C7_move_success_relocates_witness :
    (Moves.move_s3_file_to_imported Moves.demoStore "s3-to-rds/orders.csv"
        "s3-imported-to-rds/orders.csv" true true).1 "s3-to-rds/orders.csv"
      = none ∧
    (Moves.move_s3_file_to_imported Moves.demoStore "s3-to-rds/orders.csv"
        "s3-imported-to-rds/orders.csv" true true).1 "s3-imported-to-rds/orders.csv"
      = some "rows" :=
  ⟨((C7_move_success_relocates Moves.demoStore Moves.demoStore
      "s3-to-rds/orders.csv" "s3-imported-to-rds/orders.csv" true true true
      (by decide)).1 (by decide)).2.2,
   by decide⟩

/-- Claim C8: loading the same CSV into the same table twice with replace
semantics yields the same destination row count as loading it once, and a
successful load leaves exactly the CSV row count in the table. -/
theorem C8_replace_load_idempotent (db : String → Option (List (List String)))
    (rows : List (List String)) (t : String) :
    Loads.tableRowCount
        ((Loads.load_csv_to_mysql
          ((Loads.load_csv_to_mysql db (some rows) t).1) (some rows) t).1) t =
      Loads.tableRowCount ((Loads.load_csv_to_mysql db (some rows) t).1) t ∧
    Loads.tableRowCount ((Loads.load_csv_to_mysql db (some rows) t).1) t =
      rows.length ∧
    (Loads.load_csv_to_mysql db (some rows) t).2 = true := by
  refine ⟨?_, ?_, rfl⟩ <;> simp [Loads.load_csv_to_mysql, Loads.tableRowCount]

/-- Claim C9: with deletion enabled and a non-empty source table, the RDS data
is deleted only when the transfer reported success; the transfer reports
success exactly when no exception occurred and the BigQuery count measured
after the load equals the MySQL count measured before it; and on any count
mismatch the RDS rows are retained. -/
theorem C9_delete_only_after_verified_transfer (e : RdsBq.TransferEnv)
    (h : 0 < e.rdsRows) :
    ((RdsBq.run_transfer_step e true).1 = true →
      RdsBq.transfer_table_to_bigquery e = true) ∧
    (RdsBq.transfer_table_to_bigquery e = true ↔
      (e.loadRaises = false ∧ e.bqRows = e.rdsRows)) ∧
    (e.bqRows ≠ e.rdsRows → (RdsBq.run_transfer_step e true).2 = e.rdsRows) := by
  have h0 : ¬ e.rdsRows = 0 := by omega
  refine ⟨?_, ?_, ?_⟩
  · intro hd
    cases ht : RdsBq.transfer_table_to_bigquery e with
    | true => rfl
    | false =>
      unfold RdsBq.run_transfer_step at hd
      rw [ht] at hd
      simp at hd
  · unfold RdsBq.transfer_table_to_bigquery
    rw [if_neg h0]
    cases hl : e.loadRaises with
    | false =>
      simp [beq_iff_eq]
      omega
    | true => simp
  · intro hne
    have ht : RdsBq.transfer_table_to_bigquery e = false := by
      unfold RdsBq.transfer_table_to_bigquery
      rw [if_neg h0]
      cases hl : e.loadRaises with
      | false =>
        simp only [Bool.false_eq_true, if_false]
        rw [beq_eq_false_iff_ne]
        omega
      | true => simp
    unfold RdsBq.run_transfer_step
    rw [ht]
    simp

/-- Instance of C9 at a mismatching table (5 RDS rows, 4 BigQuery rows): the
RDS rows are retained. -/
theorem C9_delete_only_after_verified_transfer_witness :
    0 < (5 : Nat) ∧ (RdsBq.run_transfer_step ⟨5, 4, false, false⟩ true).2 = 5 :=
  ⟨by decide,
   (C9_delete_only_after_verified_transfer ⟨5, 4, false, false⟩ (by decide)).2.2
     (by decide)⟩

/-- Claim C10: when every upload succeeds, upload_all_csv_files returns true
and the process exits 0, even though a file whose move to the imported folder
failed is still counted as a successful upload and remains in the source
folder while being present in the bucket. -/
theorem C10_upload_success_ignores_move_failures (files : List CsvS3.CsvFile)
    (h : ∀ f ∈ files, f.uploadOk = true) :
    CsvS3.upload_all_csv_files files = true ∧
    CsvS3.run_full_pipeline files = true ∧
    CsvS3.csvToS3Status files = 0 ∧
    (∀ f ∈ files, f.moveOk = false →
      CsvS3.finalLocation f = CsvS3.FileLoc.source ∧ CsvS3.inBucket f = true) := by
  have hz : (CsvS3.upload_fold files 0 0).2 = 0 := CsvS3.upload_fold_all_ok files h 0 0
  have hall : CsvS3.upload_all_csv_files files = true := by
    unfold CsvS3.upload_all_csv_files
    rw [hz]
    rfl
  refine ⟨hall, hall, ?_, ?_⟩
  · simp [CsvS3.csvToS3Status, CsvS3.run_full_pipeline, hall]
  · intro f hf hm
    have hu : f.uploadOk = true := h f hf
    constructor
    · unfold CsvS3.finalLocation
      rw [hu, hm]
      rfl
    · exact hu

/-- Instance of C10: a single file whose upload succeeds but whose move fails
still yields overall success and exit 0 while the file stays in the source
folder. -/
theorem C10_upload_success_ignores_move_failures_witness :
    CsvS3.upload_all_csv_files [⟨"orders.csv", true, false⟩] = true ∧
    CsvS3.csvToS3Status [⟨"orders.csv", true, false⟩] = 0 ∧
    CsvS3.finalLocation ⟨"orders.csv", true, false⟩ = CsvS3.FileLoc.source := by
  have h := C10_upload_success_ignores_move_failures
    [⟨"orders.csv", true, false⟩] (by decide)
  exact ⟨h.1, h.2.2.1, (h.2.2.2 ⟨"orders.csv", true, false⟩ (by decide) rfl).1⟩
